import Mathlib

/-!
# chrome-auto-signin: a shallow embedding of the Coordinator and the Page Actor

The two scripts of the extension are embedded as pure functions.

* `background.js` (the Coordinator) becomes state passing over a `World`: the
  persisted key-value storage, the open tabs, the notifications created so far,
  the host's alarms and the pending delayed tab closes.
* `content.js` (the Page Actor) becomes functions from a `Page` to the list of
  `Effect`s the script performs, in order.

Timestamps are integer milliseconds (`Int`); every `new Date().getTime()` of the
source is an explicit argument. Stored values are integers. `debugLog` has no
effect on state and is left out.
-/

namespace AutoSignIn

/-! ## Configuration (`CONFIG`) -/

/-- The `successIndicator.value` field: an array of markers or a single string. -/
inductive IndicatorValue where
  | arr (texts : List String)
  | str (text : String)
deriving DecidableEq, Repr

/-- The `successIndicator` record of `CONFIG`. -/
structure SuccessIndicator where
  type : String
  value : IndicatorValue
deriving DecidableEq, Repr

/-- The `debug` record of `CONFIG`. -/
structure Debug where
  skipTimeCheck : Bool
  verbose : Bool
  simulateClick : Bool
deriving DecidableEq, Repr

/-- The `CONFIG` record of `background.js`; `content.js` holds a subset of it. -/
structure Config where
  signInUrl : String
  signInButtonSelector : String
  successIndicator : SuccessIndicator
  checkInterval : Int
  autoCheckInterval : Int
  autoCloseDelay : Int
  checkOnAnyWebsite : Bool
  autoCloseAfterSuccess : Bool
  showNotification : Bool
  debugMode : Bool
  debug : Debug
deriving DecidableEq, Repr

/-- The values written in the source of `background.js`. -/
def CONFIG : Config where
  signInUrl := "https://www.iamtxt.com"
  signInButtonSelector := ".signin"
  successIndicator := { type := "text", value := .arr ["今天已经签过了哈", "阅读愉快"] }
  checkInterval := 24
  autoCheckInterval := 60
  autoCloseDelay := 3000
  checkOnAnyWebsite := true
  autoCloseAfterSuccess := false
  showNotification := true
  debugMode := false
  debug := { skipTimeCheck := false, verbose := true, simulateClick := false }

/-! ## The host: storage, tabs, notifications, alarms, timeouts -/

/-- The `chrome.storage.local` area: a key is unset (`none`) or holds an integer. -/
abbrev Storage := String → Option Int

/-- A browser tab as seen through `chrome.tabs`. -/
structure Tab where
  id : Option Nat
  url : String
  active : Bool
deriving DecidableEq, Repr

/-- A notification handed to `chrome.notifications.create`. -/
structure Notification where
  title : String
  message : String
deriving DecidableEq, Repr

/-- A named timer of `chrome.alarms`. -/
structure Alarm where
  name : String
  delayInMinutes : Int
  periodInMinutes : Int
deriving DecidableEq, Repr

/-- A pending `setTimeout` whose callback is `chrome.tabs.remove(tabId)`. -/
structure PendingClose where
  tabId : Nat
  delay : Int
deriving DecidableEq, Repr

/-- Which calls of the `chrome.tabs` API reject in the current environment. -/
structure TabsFault where
  query : Bool
  update : Bool
  create : Bool
deriving DecidableEq, Repr

/-- Everything the Coordinator reads or changes. -/
structure World where
  storage : Storage
  tabs : List Tab
  notifications : List Notification
  alarms : List Alarm
  pendingCloses : List PendingClose
  fault : TabsFault
  nextTabId : Nat

/-- A world with nothing stored, no tabs, no notifications, no alarms and a
working `chrome.tabs` API. -/
def World.fresh : World where
  storage := fun _ => none
  tabs := []
  notifications := []
  alarms := []
  pendingCloses := []
  fault := { query := false, update := false, create := false }
  nextTabId := 1

/-- A world like `World.fresh` in which both timestamps are stored. -/
def World.withTimes (lastSignTime lastCheckTime : Int) : World :=
  { World.fresh with
    storage := fun k =>
      if k = "lastSignTime" then some lastSignTime
      else if k = "lastCheckTime" then some lastCheckTime
      else none }

/-- A world like `World.fresh` with the given open tabs and `chrome.tabs` faults. -/
def World.withTabs (tabs : List Tab) (fault : TabsFault) : World :=
  { World.fresh with tabs := tabs, fault := fault, nextTabId := tabs.length + 1 }

/-! ## `background.js` -/

namespace Background

/-- Embeds `showNotification`: gated by `CONFIG.showNotification`. -/
def showNotification (cfg : Config) (title message : String) (w : World) : World :=
  if cfg.showNotification then
    { w with notifications := w.notifications ++ [{ title := title, message := message }] }
  else w

/-- Embeds `getStorageValue`: the stored value unless it is `undefined`. -/
def getStorageValue (w : World) (key : String) (defaultValue : Int) : Int :=
  match w.storage key with
  | some v => v
  | none => defaultValue

/-- Embeds `setStorageValue`: `chrome.storage.local.set` of one key. -/
def setStorageValue (key : String) (value : Int) (w : World) : World :=
  { w with storage := fun k => if k = key then some value else w.storage k }

/-- The tabs `chrome.tabs.query` returns for the pattern formed by `signInUrl`
followed by a star: those whose URL starts with `signInUrl`. -/
def tabsQuery (cfg : Config) (w : World) : List Tab :=
  w.tabs.filter (fun t => cfg.signInUrl.data.isPrefixOf t.url.data)

/-- The effect of `chrome.tabs.update(id, { active: true })`: the tab with that id
becomes the active one. -/
def tabsUpdateActive (id : Option Nat) (w : World) : World :=
  { w with tabs := w.tabs.map (fun t => { t with active := decide (t.id = id) }) }

/-- The effect of `chrome.tabs.create({ url, active: true })`: a fresh tab is
appended and is the active one. -/
def tabsCreate (url : String) (w : World) : World :=
  { w with
    tabs := w.tabs.map (fun t => { t with active := false })
              ++ [{ id := some w.nextTabId, url := url, active := true }]
    nextTabId := w.nextTabId + 1 }

/-- Embeds `openSignInPage`, the `catch` branch included. -/
def openSignInPage (cfg : Config) (w : World) : World :=
  if w.fault.query then showNotification cfg "签到失败" "无法打开签到页面" w
  else
    match tabsQuery cfg w with
    | t :: _ =>
      if w.fault.update then showNotification cfg "签到失败" "无法打开签到页面" w
      else tabsUpdateActive t.id w
    | [] =>
      if w.fault.create then showNotification cfg "签到失败" "无法打开签到页面" w
      else tabsCreate cfg.signInUrl w

/-- Embeds `checkNeedToSign`; `currentTime` is the clock reading it takes. -/
def checkNeedToSign (cfg : Config) (currentTime : Int) (w : World) : Bool :=
  let lastSignTime := getStorageValue w "lastSignTime" 0
  cfg.debug.skipTimeCheck ||
    decide (currentTime - lastSignTime > cfg.checkInterval * 60 * 60 * 1000)

/-- Embeds `performAutoCheck`. `currentTime` is its own clock reading and
`signClock` the later reading taken inside `checkNeedToSign`. -/
def performAutoCheck (cfg : Config) (currentTime signClock : Int) (w : World) : World :=
  let lastCheckTime := getStorageValue w "lastCheckTime" 0
  let checkIntervalMs := cfg.autoCheckInterval * 60 * 1000
  let timeSinceLastCheck := currentTime - lastCheckTime
  if timeSinceLastCheck > checkIntervalMs then
    let w1 := setStorageValue "lastCheckTime" currentTime w
    if checkNeedToSign cfg signClock w1 then
      openSignInPage cfg
        (showNotification cfg "自动签到" "检测到需要签到，正在打开签到页面..." w1)
    else w1
  else w

/-- The effect of `chrome.alarms.clear(name)`: the alarms of that name are gone. -/
def alarmsClear (name : String) (w : World) : World :=
  { w with alarms := w.alarms.filter (fun a => a.name != name) }

/-- The effect of `chrome.alarms.create(name, info)`: an alarm of the same name is
cancelled and replaced by the new one. -/
def alarmsCreate (a : Alarm) (w : World) : World :=
  { w with alarms := w.alarms.filter (fun b => b.name != a.name) ++ [a] }

/-- Embeds `setupAlarm`: clear the named alarm, then create it anew. -/
def setupAlarm (cfg : Config) (w : World) : World :=
  alarmsCreate
    { name := "autoSignInCheck", delayInMinutes := 1,
      periodInMinutes := cfg.autoCheckInterval }
    (alarmsClear "autoSignInCheck" w)

/-- A request of the message channel, one constructor per `action` tag the
listener tests for, and `unknown` for every other tag. -/
inductive Request where
  | get_config
  | get_storage_values
  | set_storage_value (key : String) (value : Int)
  | show_notification (title message : String)
  | sign_in_success
  | force_sign_in
  | reset_sign_time
  | unknown (action : String)
deriving DecidableEq, Repr

/-- The argument of `sendResponse`. -/
inductive Response where
  | config (config : Config)
  | storageValues (lastSignTime lastCheckTime : Int)
  | success (success : Bool)
  | result (success : Bool) (message : String)
deriving DecidableEq, Repr

/-- The `sender` of a message: the tab it came from, when it came from one. -/
structure Sender where
  tab : Option Tab
deriving DecidableEq, Repr

/-- The test `sender.tab && sender.tab.id` of the listener: the id to close, when
the sender has a tab whose id is defined and not zero. -/
def senderTabId (sender : Sender) : Option Nat :=
  match sender.tab with
  | some t =>
    match t.id with
    | some n => if n = 0 then none else some n
    | none => none
  | none => none

/-- Embeds the `chrome.runtime.onMessage` listener. `now` is the clock reading of
the branch that takes one; the result is the new world and the response sent. -/
def onMessage (cfg : Config) (now : Int) (request : Request) (sender : Sender)
    (w : World) : World × Option Response :=
  match request with
  | .get_config => (w, some (.config cfg))
  | .get_storage_values =>
    (w, some (.storageValues (getStorageValue w "lastSignTime" 0)
      (getStorageValue w "lastCheckTime" 0)))
  | .set_storage_value key value => (setStorageValue key value w, some (.success true))
  | .show_notification title message =>
    (showNotification cfg title message w, some (.success true))
  | .sign_in_success =>
    let w1 := setStorageValue "lastSignTime" now w
    let w2 := showNotification cfg "签到成功" "已完成今日签到" w1
    let w3 :=
      if cfg.autoCloseAfterSuccess then
        match senderTabId sender with
        | some n =>
          { w2 with pendingCloses :=
              w2.pendingCloses ++ [{ tabId := n, delay := cfg.autoCloseDelay }] }
        | none => w2
      else w2
    (w3, some (.success true))
  | .force_sign_in =>
    if checkNeedToSign cfg now w then
      (openSignInPage cfg w, some (.result true "已尝试打开签到页面"))
    else (w, some (.result false "当前不需要签到"))
  | .reset_sign_time => (setStorageValue "lastSignTime" 0 w, some (.success true))
  | .unknown _ => (w, none)

/-- Embeds the `chrome.alarms.onAlarm` listener: the poll cycle runs for the alarm
named `autoSignInCheck` when `CONFIG.checkOnAnyWebsite` is set. -/
def onAlarm (cfg : Config) (alarm : Alarm) (currentTime signClock : Int) (w : World) :
    World :=
  if alarm.name = "autoSignInCheck" then
    if cfg.checkOnAnyWebsite then performAutoCheck cfg currentTime signClock w
    else w
  else w

/-- The value the Coordinator holds for `lastCheckTime`, an unset key read as 0. -/
def lastCheckTime (w : World) : Int :=
  getStorageValue w "lastCheckTime" 0

/-- How many pending delayed `chrome.tabs.remove` calls target the tab `n`. -/
def closesFor (n : Nat) (w : World) : Nat :=
  (w.pendingCloses.filter (fun c => c.tabId == n)).length

/-- A sender whose tab has the given id. -/
def Sender.ofTab (n : Nat) : Sender :=
  { tab := some { id := some n, url := "https://www.iamtxt.com/", active := true } }

end Background

/-! ## `content.js` -/

namespace Content

open Background (Request)

/-- What `document.querySelector` does for a selector. -/
inductive QueryResult where
  | element (e : Nat)
  | null
  | throws
deriving DecidableEq, Repr

/-- The page the script runs in. `clickThrows e` tells whether calling `click()` on
the element `e` throws, as it does on an element that has no such method. -/
structure Page where
  href : String
  innerText : String
  querySelector : String → QueryResult
  clickThrows : Nat → Bool := fun _ => false

/-- The functions the script hands to `setTimeout`. -/
inductive Task where
  | tryToSignIn
  | checkSignInResult
  | addDebugPanel
deriving DecidableEq, Repr

/-- An observable action of the script. -/
inductive Effect where
  | click (element : Nat)
  | sendMessage (request : Request)
  | setTimeout (task : Task) (delay : Int)
deriving DecidableEq, Repr

/-- Embeds `String.prototype.includes`: `text` occurs somewhere in `pageText`. -/
def includes (pageText text : String) : Bool :=
  pageText.data.tails.any (fun rest => text.data.isPrefixOf rest)

/-- Embeds `showNotification` of the content script: a `show_notification`
message, gated by `CONFIG.showNotification`. -/
def showNotification (cfg : Config) (title text : String) : List Effect :=
  if cfg.showNotification then [.sendMessage (.show_notification title text)] else []

/-- Embeds `safeQuerySelector`: the element, or `null` also when the query throws. -/
def safeQuerySelector (page : Page) (selector : String) : Option Nat :=
  match page.querySelector selector with
  | .element e => some e
  | .null => none
  | .throws => none

/-- The `successTexts` of `checkSignInResult`: the array, or the single value
wrapped in one. -/
def successTexts (cfg : Config) : List String :=
  match cfg.successIndicator.value with
  | .arr texts => texts
  | .str text => [text]

/-- The selector `checkSignInResult` passes in element mode; an array is turned
into a string by joining its items with commas. -/
def successSelector (cfg : Config) : String :=
  match cfg.successIndicator.value with
  | .arr texts => ",".intercalate texts
  | .str text => text

/-- The local `success` of `checkSignInResult` before it acts on it. -/
def classify (cfg : Config) (page : Page) : Bool :=
  if cfg.successIndicator.type = "text" then
    (successTexts cfg).any (fun text => includes page.innerText text)
  else if cfg.successIndicator.type = "element" then
    (safeQuerySelector page (successSelector cfg)).isSome
  else false

/-- Embeds `checkSignInResult`. -/
def checkSignInResult (cfg : Config) (page : Page) : List Effect :=
  if classify cfg page then [.sendMessage .sign_in_success]
  else showNotification cfg "签到状态未知" "未检测到成功标识，请手动确认"

/-- Embeds `tryToSignIn`, its `try`/`catch` included: when `signInButton.click()`
throws, the rest of the `try` block, the `setTimeout` among it, is skipped and the
`catch` only logs. -/
def tryToSignIn (cfg : Config) (page : Page) : List Effect :=
  match safeQuerySelector page cfg.signInButtonSelector with
  | some signInButton =>
    if !cfg.debug.simulateClick then
      if page.clickThrows signInButton then []
      else [.click signInButton, .setTimeout .checkSignInResult 2000]
    else [.setTimeout .checkSignInResult 2000]
  | none => showNotification cfg "签到失败" "未找到签到按钮，请检查脚本配置"

/-- The variables the script has set up when `main` runs. -/
structure ActorState where
  config : Config
  lastSignTime : Int
  lastCheckTime : Int
  needToSign : Bool
deriving DecidableEq, Repr

/-- Embeds `x || d` of JavaScript on numbers: a zero `x` gives `d`. -/
def orDefault (x d : Int) : Int :=
  if x = 0 then d else x

/-- The `config` field of the answer to `get_config`, when the answer has one. -/
def fetchedConfig (responseConfig : Option Background.Response) : Option Config :=
  match responseConfig with
  | some (.config c) => some c
  | _ => none

/-- The merge of the fetched configuration into the script's `CONFIG`. -/
def mergeConfig (own : Config) (responseConfig : Option Background.Response) : Config :=
  match fetchedConfig responseConfig with
  | some c =>
    { own with
      debugMode := c.debugMode
      debug := { skipTimeCheck := c.debug.skipTimeCheck, verbose := c.debug.verbose,
                 simulateClick := c.debug.simulateClick }
      autoCloseAfterSuccess := c.autoCloseAfterSuccess
      autoCloseDelay := c.autoCloseDelay
      showNotification := c.showNotification }
  | none => own

/-- The two assignments `responseStorage.lastSignTime || 0` and
`responseStorage.lastCheckTime || 0`; a response without these fields gives 0. -/
def fetchedTimes (responseStorage : Background.Response) : Int × Int :=
  match responseStorage with
  | .storageValues lastSign lastCheck => (orDefault lastSign 0, orDefault lastCheck 0)
  | _ => (0, 0)

/-- Embeds the start-up block of the script, lines 33 to 63: `own` is the `CONFIG`
constant of `content.js`, `responseConfig` and
`responseStorage` are the answers to `get_config` and `get_storage_values`
(`none` when there is none) and `currentTime` the clock reading. When the first
answer has no `config`, reading `checkInterval` throws and `needToSign` keeps
its initial value `false`. -/
def startup (own : Config) (responseConfig responseStorage : Option Background.Response)
    (currentTime : Int) : ActorState :=
  let cfg := mergeConfig own responseConfig
  match responseStorage with
  | some r =>
    let lastSignTime := (fetchedTimes r).1
    let lastCheckTime := (fetchedTimes r).2
    match fetchedConfig responseConfig with
    | some c =>
      let checkIntervalHours := orDefault c.checkInterval 24
      { config := cfg, lastSignTime := lastSignTime, lastCheckTime := lastCheckTime,
        needToSign := cfg.debug.skipTimeCheck ||
          decide (currentTime - lastSignTime > checkIntervalHours * 60 * 60 * 1000) }
    | none =>
      { config := cfg, lastSignTime := lastSignTime, lastCheckTime := lastCheckTime,
        needToSign := false }
  | none => { config := cfg, lastSignTime := 0, lastCheckTime := 0, needToSign := false }

/-- Embeds `main`: on the sign-in page it schedules `tryToSignIn` after 2000 ms and,
in debug mode, `addDebugPanel` after 1000 ms. -/
def main (st : ActorState) (page : Page) : List Effect :=
  if st.config.signInUrl.data.isPrefixOf page.href.data then
    [.setTimeout .tryToSignIn 2000]
      ++ (if st.config.debugMode then [.setTimeout .addDebugPanel 1000] else [])
  else []

/-- The Page Actor's `needToSign` when its two requests are answered by the
Coordinator in the world `w` and its clock reads `t`. -/
def actorNeedToSign (own cfg : Config) (t : Int) (sender : Background.Sender) (w : World) :
    Bool :=
  (startup own (Background.onMessage cfg t .get_config sender w).2
    (Background.onMessage cfg t .get_storage_values sender w).2 t).needToSign

/-- A page with one element, number 1, that the selector `.signin` matches. -/
def Page.withButton : Page where
  href := "https://www.iamtxt.com/"
  innerText := "签到"
  querySelector := fun sel => if sel = ".signin" then .element 1 else .null

/-- A page like `Page.withButton` whose element 1 has no working `click()`. -/
def Page.withDeadButton : Page where
  href := "https://www.iamtxt.com/"
  innerText := "签到"
  querySelector := fun sel => if sel = ".signin" then .element 1 else .null
  clickThrows := fun _ => true

/-- A page with the given text on which no selector matches. -/
def Page.ofText (text : String) : Page where
  href := "https://www.iamtxt.com/"
  innerText := text
  querySelector := fun _ => .null

/-- A page on which every selector query throws. -/
def Page.broken : Page where
  href := "https://www.iamtxt.com/"
  innerText := ""
  querySelector := fun _ => .throws

end Content

/-! ## Theorems -/

open Background Content

/-! ### Frame lemmas on the storage -/

theorem storage_showNotification (cfg : Config) (title message : String) (w : World) :
    (Background.showNotification cfg title message w).storage = w.storage := by
  unfold Background.showNotification
  split <;> rfl

theorem storage_openSignInPage (cfg : Config) (w : World) :
    (openSignInPage cfg w).storage = w.storage := by
  unfold openSignInPage
  split
  · exact storage_showNotification _ _ _ _
  · split
    · split
      · exact storage_showNotification _ _ _ _
      · rfl
    · split
      · exact storage_showNotification _ _ _ _
      · rfl

theorem getStorageValue_eq_getD (w : World) (key : String) (d : Int) :
    getStorageValue w key d = (w.storage key).getD d := by
  unfold getStorageValue
  cases w.storage key <;> rfl

theorem sign_in_success_storage (cfg : Config) (t : Int) (s : Sender) (w : World) :
    (onMessage cfg t .sign_in_success s w).1.storage
      = (setStorageValue "lastSignTime" t w).storage := by
  simp only [onMessage]
  split
  · split
    · exact storage_showNotification _ _ _ _
    · exact storage_showNotification _ _ _ _
  · exact storage_showNotification _ _ _ _

theorem sign_in_success_value (cfg : Config) (t : Int) (s : Sender) (w : World) :
    (onMessage cfg t .sign_in_success s w).1.storage "lastSignTime" = some t
      ∧ (onMessage cfg t .sign_in_success s w).1.storage "lastCheckTime"
          = w.storage "lastCheckTime" := by
  rw [sign_in_success_storage]
  constructor <;> simp [setStorageValue]

/-! ### The need decision -/

/-- C1: `checkNeedToSign` at time `t` returns true if and only if
`t - lastSignTime > checkInterval * 3600000` or `skipTimeCheck` is set, where an
unset `lastSignTime` is read as 0; for every storage, time and configuration. -/
theorem checkNeedToSign_iff (cfg : Config) (t : Int) (w : World) :
    checkNeedToSign cfg t w = true ↔
      (t - (w.storage "lastSignTime").getD 0 > cfg.checkInterval * 3600000
        ∨ cfg.debug.skipTimeCheck = true) := by
  unfold checkNeedToSign
  simp only [getStorageValue_eq_getD, Bool.or_eq_true, decide_eq_true_eq]
  have h : cfg.checkInterval * 60 * 60 * 1000 = cfg.checkInterval * 3600000 := by ring
  rw [h]
  exact or_comm

/-! ### The poll cycle -/

/-- C3: when `now - lastCheckTime` is less than `autoCheckInterval * 60000`,
`performAutoCheck` returns the world it was given: both persisted timestamps,
the notifications and the tabs are unchanged. -/
theorem performAutoCheck_before_interval (cfg : Config) (now signClock : Int) (w : World)
    (h : now - getStorageValue w "lastCheckTime" 0 < cfg.autoCheckInterval * 60000) :
    performAutoCheck cfg now signClock w = w
      ∧ (performAutoCheck cfg now signClock w).storage "lastSignTime"
          = w.storage "lastSignTime"
      ∧ (performAutoCheck cfg now signClock w).storage "lastCheckTime"
          = w.storage "lastCheckTime"
      ∧ (performAutoCheck cfg now signClock w).notifications = w.notifications
      ∧ (performAutoCheck cfg now signClock w).tabs = w.tabs := by
  have hw : performAutoCheck cfg now signClock w = w := by
    unfold performAutoCheck
    have hlt : ¬ now - getStorageValue w "lastCheckTime" 0
        > cfg.autoCheckInterval * 60 * 1000 := by
      have e : cfg.autoCheckInterval * 60 * 1000 = cfg.autoCheckInterval * 60000 := by ring
      rw [e]
      exact not_lt.mpr (le_of_lt h)
    simp only [hlt, if_false]
  rw [hw]
  exact ⟨rfl, rfl, rfl, rfl, rfl⟩

theorem performAutoCheck_before_interval_witness :
    (1000 : Int) - getStorageValue (World.withTimes 0 500) "lastCheckTime" 0
        < CONFIG.autoCheckInterval * 60000
      ∧ performAutoCheck CONFIG 1000 1001 (World.withTimes 0 500) = World.withTimes 0 500 :=
  ⟨by decide, (performAutoCheck_before_interval CONFIG 1000 1001 (World.withTimes 0 500)
    (by decide)).1⟩

/-- C4, as stated, fails at exact equality: with `lastCheckTime = 1000`, the
default interval of 60 minutes and `now = 3601000`, the elapsed time is not less
than the interval, yet `lastCheckTime` is not set to `now`: the world is unchanged. -/
theorem performAutoCheck_at_interval_skips :
    ¬ ((3601000 : Int) - getStorageValue (World.withTimes 0 1000) "lastCheckTime" 0
        < CONFIG.autoCheckInterval * 60000)
      ∧ (performAutoCheck CONFIG 3601000 3601000 (World.withTimes 0 1000)).storage
          "lastCheckTime" = some 1000
      ∧ (performAutoCheck CONFIG 3601000 3601000 (World.withTimes 0 1000)).storage
          "lastCheckTime" ≠ some 3601000 := by
  refine ⟨by decide, by decide, by decide⟩

/-- C4 (amended): when `now - lastCheckTime` is strictly greater than
`autoCheckInterval * 60000`, `performAutoCheck` persists `lastCheckTime = now`,
whatever the need decision and whatever page-opening does, and leaves
`lastSignTime` unchanged; when `now - lastCheckTime` is exactly equal to
`autoCheckInterval * 60000` the cycle is skipped: the world is returned
unchanged. -/
theorem performAutoCheck_after_interval (cfg : Config) (now signClock : Int) (w : World) :
    (now - getStorageValue w "lastCheckTime" 0 > cfg.autoCheckInterval * 60000 →
        (performAutoCheck cfg now signClock w).storage "lastCheckTime" = some now
          ∧ (performAutoCheck cfg now signClock w).storage "lastSignTime"
              = w.storage "lastSignTime")
      ∧ (now - getStorageValue w "lastCheckTime" 0 = cfg.autoCheckInterval * 60000 →
        performAutoCheck cfg now signClock w = w) := by
  have e : cfg.autoCheckInterval * 60 * 1000 = cfg.autoCheckInterval * 60000 := by ring
  constructor
  · intro h
    have hgt : now - getStorageValue w "lastCheckTime" 0
        > cfg.autoCheckInterval * 60 * 1000 := by
      rw [e]
      exact h
    have hst : (performAutoCheck cfg now signClock w).storage
        = (setStorageValue "lastCheckTime" now w).storage := by
      unfold performAutoCheck
      simp only [hgt, if_true]
      split
      · rw [storage_openSignInPage, storage_showNotification]
      · rfl
    rw [hst]
    constructor
    · simp [setStorageValue]
    · simp [setStorageValue]
  · intro h
    have hle : ¬ now - getStorageValue w "lastCheckTime" 0
        > cfg.autoCheckInterval * 60 * 1000 := by
      rw [e, h]
      exact lt_irrefl _
    unfold performAutoCheck
    simp only [hle, if_false]

theorem performAutoCheck_after_interval_witness :
    ((3601001 : Int) - getStorageValue (World.withTimes 0 1000) "lastCheckTime" 0
        > CONFIG.autoCheckInterval * 60000
      ∧ (performAutoCheck CONFIG 3601001 3601002 (World.withTimes 0 1000)).storage
          "lastCheckTime" = some 3601001
      ∧ (performAutoCheck CONFIG 3601001 3601002 (World.withTimes 0 1000)).storage
          "lastSignTime" = (World.withTimes 0 1000).storage "lastSignTime")
      ∧ ((3600000 : Int) - getStorageValue World.fresh "lastCheckTime" 0
          = CONFIG.autoCheckInterval * 60000
        ∧ performAutoCheck CONFIG 3600000 3600001 World.fresh = World.fresh) :=
  ⟨⟨by decide, (performAutoCheck_after_interval CONFIG 3601001 3601002
      (World.withTimes 0 1000)).1 (by decide)⟩,
    ⟨by decide, (performAutoCheck_after_interval CONFIG 3600000 3600001
      World.fresh).2 (by decide)⟩⟩

/-! ### The success report -/

/-- C5: handling `sign_in_success` at time `t1` sets `lastSignTime = t1` and leaves
`lastCheckTime` unchanged; handling it at `t1` and then again at `t2` leaves the
same stored state as handling it once at `t2`, with `lastSignTime = t2`. This
holds for all `t1` and `t2`, those with `t1 <= t2` among them, and for every
sender of either message. -/
theorem sign_in_success_restamps (cfg : Config) (t1 t2 : Int) (s1 s2 : Sender)
    (w : World) :
    ((onMessage cfg t1 .sign_in_success s1 w).1.storage "lastSignTime" = some t1
      ∧ (onMessage cfg t1 .sign_in_success s1 w).1.storage "lastCheckTime"
          = w.storage "lastCheckTime")
      ∧ (onMessage cfg t2 .sign_in_success s2
            (onMessage cfg t1 .sign_in_success s1 w).1).1.storage
          = (onMessage cfg t2 .sign_in_success s2 w).1.storage
      ∧ (onMessage cfg t2 .sign_in_success s2
            (onMessage cfg t1 .sign_in_success s1 w).1).1.storage "lastSignTime"
          = some t2 := by
  have hst : ∀ (t : Int) (s : Sender) (v : World),
      (onMessage cfg t .sign_in_success s v).1.storage
        = (setStorageValue "lastSignTime" t v).storage :=
    fun t s v => sign_in_success_storage cfg t s v
  refine ⟨⟨?_, ?_⟩, ?_, ?_⟩
  · rw [hst]; simp [setStorageValue]
  · rw [hst]; simp [setStorageValue]
  · rw [hst t2 s2, hst t2 s2]
    funext k
    simp only [setStorageValue]
    split
    · rfl
    · rw [hst t1 s1]
      simp only [setStorageValue]
      split
      · contradiction
      · rfl
  · rw [hst]; simp [setStorageValue]

/-- C6, as stated, fails: with `autoCloseAfterSuccess` on, two `sign_in_success`
messages from tab 7 leave two pending closes for tab 7, not at most one. -/
theorem sign_in_success_twice_two_closes :
    closesFor 7
        (onMessage { CONFIG with autoCloseAfterSuccess := true } 2000 .sign_in_success
          (Sender.ofTab 7)
          (onMessage { CONFIG with autoCloseAfterSuccess := true } 1000 .sign_in_success
            (Sender.ofTab 7) World.fresh).1).1 = 2
      ∧ ¬ closesFor 7
        (onMessage { CONFIG with autoCloseAfterSuccess := true } 2000 .sign_in_success
          (Sender.ofTab 7)
          (onMessage { CONFIG with autoCloseAfterSuccess := true } 1000 .sign_in_success
            (Sender.ofTab 7) World.fresh).1).1 ≤ 1 := by
  refine ⟨by decide, by decide⟩

/-- C6 (amended): with `autoCloseAfterSuccess` on and a sender tab whose id `n` is
defined and not zero, every handling of `sign_in_success` schedules one delayed
close of tab `n` after `autoCloseDelay`; handling it twice schedules two, there
is no de-duplication. -/
theorem sign_in_success_schedules_each_time (cfg : Config) (t1 t2 : Int) (sender : Sender)
    (n : Nat) (w : World) (hclose : cfg.autoCloseAfterSuccess = true)
    (hid : senderTabId sender = some n) :
    (onMessage cfg t1 .sign_in_success sender w).1.pendingCloses
        = w.pendingCloses ++ [{ tabId := n, delay := cfg.autoCloseDelay }]
      ∧ closesFor n (onMessage cfg t1 .sign_in_success sender w).1 = closesFor n w + 1
      ∧ closesFor n (onMessage cfg t2 .sign_in_success sender
          (onMessage cfg t1 .sign_in_success sender w).1).1 = closesFor n w + 2 := by
  have hpc : ∀ (t : Int) (v : World),
      (onMessage cfg t .sign_in_success sender v).1.pendingCloses
        = v.pendingCloses ++ [{ tabId := n, delay := cfg.autoCloseDelay }] := by
    intro t v
    simp only [onMessage, hclose, hid, if_true]
    unfold Background.showNotification
    split <;> rfl
  have hcount : ∀ (t : Int) (v : World),
      closesFor n (onMessage cfg t .sign_in_success sender v).1 = closesFor n v + 1 := by
    intro t v
    unfold closesFor
    rw [hpc]
    simp
  refine ⟨hpc t1 w, hcount t1 w, ?_⟩
  rw [hcount t2, hcount t1]

theorem sign_in_success_schedules_each_time_witness :
    ({ CONFIG with autoCloseAfterSuccess := true } : Config).autoCloseAfterSuccess = true
      ∧ senderTabId (Sender.ofTab 7) = some 7
      ∧ closesFor 7
        (onMessage { CONFIG with autoCloseAfterSuccess := true } 2000 .sign_in_success
          (Sender.ofTab 7)
          (onMessage { CONFIG with autoCloseAfterSuccess := true } 1000 .sign_in_success
            (Sender.ofTab 7) World.fresh).1).1 = closesFor 7 World.fresh + 2 :=
  ⟨rfl, by decide,
    (sign_in_success_schedules_each_time { CONFIG with autoCloseAfterSuccess := true }
      1000 2000 (Sender.ofTab 7) 7 World.fresh rfl (by decide)).2.2⟩

/-- C7: with `skipTimeCheck` off and `checkInterval` not negative, `checkNeedToSign`
at time `t` is false right after `sign_in_success` was handled at `t`; and when
`lastSignTime` is 0, `checkInterval` is 24 and `t > 86400000`, it is true before
the report. -/
theorem need_true_before_false_after_success (cfg : Config) (t : Int) (sender : Sender)
    (w : World) (hskip : cfg.debug.skipTimeCheck = false) (hint : 0 ≤ cfg.checkInterval) :
    checkNeedToSign cfg t (onMessage cfg t .sign_in_success sender w).1 = false
      ∧ (getStorageValue w "lastSignTime" 0 = 0 → cfg.checkInterval = 24 → t > 86400000 →
          checkNeedToSign cfg t w = true) := by
  constructor
  · have hst : (onMessage cfg t .sign_in_success sender w).1.storage "lastSignTime"
        = some t := (sign_in_success_value cfg t sender w).1
    unfold checkNeedToSign getStorageValue
    rw [hst, hskip]
    simp only [Bool.false_or, sub_self, decide_eq_false_iff_not, not_lt]
    have : (0 : Int) ≤ cfg.checkInterval * 3600000 := by positivity
    linarith
  · intro h0 h24 ht
    unfold checkNeedToSign
    rw [h0, h24, hskip]
    simp only [Bool.false_or, decide_eq_true_eq]
    linarith

theorem need_true_before_false_after_success_witness :
    checkNeedToSign CONFIG 1700000000000
        (onMessage CONFIG 1700000000000 .sign_in_success (Sender.ofTab 7)
          World.fresh).1 = false
      ∧ checkNeedToSign CONFIG 1700000000000 World.fresh = true :=
  ⟨(need_true_before_false_after_success CONFIG 1700000000000 (Sender.ofTab 7) World.fresh
      rfl (by decide)).1,
    (need_true_before_false_after_success CONFIG 1700000000000 (Sender.ofTab 7) World.fresh
      rfl (by decide)).2 (by decide) rfl (by decide)⟩

/-! ### The alarm -/

theorem alarms_setupAlarm (cfg : Config) (w : World) :
    (setupAlarm cfg w).alarms
      = w.alarms.filter (fun a => a.name != "autoSignInCheck")
          ++ [{ name := "autoSignInCheck", delayInMinutes := 1,
                periodInMinutes := cfg.autoCheckInterval }] := by
  simp only [setupAlarm, alarmsCreate, alarmsClear, List.filter_filter, Bool.and_self]

theorem alarms_setupAlarm_iterate (cfg : Config) (w : World) (n : Nat) :
    ((setupAlarm cfg)^[n + 1] w).alarms
      = w.alarms.filter (fun a => a.name != "autoSignInCheck")
          ++ [{ name := "autoSignInCheck", delayInMinutes := 1,
                periodInMinutes := cfg.autoCheckInterval }] := by
  induction n with
  | zero => exact alarms_setupAlarm cfg w
  | succ k ih =>
    rw [Function.iterate_succ_apply', alarms_setupAlarm, ih]
    simp [List.filter_append, List.filter_filter]

/-- C9: after any number `n >= 1` of `setupAlarm` calls, from any initial alarm
collection, exactly one alarm is named `autoSignInCheck`, and it has initial delay
1 minute and period `autoCheckInterval`; the alarms of other names are as before,
and a second call leaves the collection the first call produced. -/
theorem setupAlarm_single_alarm (cfg : Config) (w : World) (n : Nat) (hn : 1 ≤ n) :
    ((setupAlarm cfg)^[n] w).alarms.filter (fun a => a.name == "autoSignInCheck")
        = [{ name := "autoSignInCheck", delayInMinutes := 1,
             periodInMinutes := cfg.autoCheckInterval }]
      ∧ ((setupAlarm cfg)^[n] w).alarms.filter (fun a => a.name != "autoSignInCheck")
        = w.alarms.filter (fun a => a.name != "autoSignInCheck")
      ∧ (setupAlarm cfg (setupAlarm cfg w)).alarms = (setupAlarm cfg w).alarms := by
  obtain ⟨k, rfl⟩ : ∃ k, n = k + 1 := ⟨n - 1, by omega⟩
  rw [alarms_setupAlarm_iterate]
  refine ⟨?_, ?_, ?_⟩
  · simp [List.filter_append, List.filter_filter]
  · simp [List.filter_append, List.filter_filter]
  · have h2 := alarms_setupAlarm_iterate cfg w 1
    have h1 := alarms_setupAlarm cfg w
    simp only [Function.iterate_succ_apply', Function.iterate_zero, id_eq] at h2
    rw [h2, h1]

theorem setupAlarm_single_alarm_witness :
    1 ≤ 3
      ∧ ((setupAlarm CONFIG)^[3]
          { World.fresh with alarms :=
              [{ name := "autoSignInCheck", delayInMinutes := 5, periodInMinutes := 5 },
               { name := "autoSignInCheck", delayInMinutes := 9, periodInMinutes := 9 }] }
          ).alarms.filter (fun a => a.name == "autoSignInCheck")
        = [{ name := "autoSignInCheck", delayInMinutes := 1, periodInMinutes := 60 }] :=
  ⟨by decide, (setupAlarm_single_alarm CONFIG _ 3 (by decide)).1⟩

/-! ### The forced check -/

/-- C10: the `force_sign_in` handler responds with `success` equal to the value of
`checkNeedToSign`; when that is true the world is the result of `openSignInPage`,
when it is false the world is unchanged (timestamps, tabs and notifications);
in both cases the storage is unchanged. -/
theorem force_sign_in_result (cfg : Config) (now : Int) (sender : Sender) (w : World) :
    (∃ message, (onMessage cfg now .force_sign_in sender w).2
        = some (.result (checkNeedToSign cfg now w) message))
      ∧ (onMessage cfg now .force_sign_in sender w).1
          = (if checkNeedToSign cfg now w then openSignInPage cfg w else w)
      ∧ (onMessage cfg now .force_sign_in sender w).1.storage = w.storage := by
  simp only [onMessage]
  cases hneed : checkNeedToSign cfg now w
  · exact ⟨⟨_, rfl⟩, rfl, rfl⟩
  · exact ⟨⟨_, rfl⟩, rfl, storage_openSignInPage cfg w⟩

/-! ### The Page Actor: classification and the missing button -/

theorem includes_iff (pageText text : String) :
    includes pageText text = true ↔ text.data <:+: pageText.data := by
  unfold includes
  rw [List.any_eq_true, List.infix_iff_prefix_suffix]
  constructor
  · rintro ⟨rest, hmem, hpre⟩
    exact ⟨rest, List.isPrefixOf_iff_prefix.mp hpre, (List.mem_tails _ _).mp hmem⟩
  · rintro ⟨rest, hpre, hsuf⟩
    exact ⟨rest, (List.mem_tails _ _).mpr hsuf, List.isPrefixOf_iff_prefix.mpr hpre⟩

theorem classify_text_iff (cfg : Config) (page : Page)
    (htext : cfg.successIndicator.type = "text") :
    classify cfg page = true
      ↔ ∃ m ∈ successTexts cfg, m.data <:+: page.innerText.data := by
  unfold classify
  rw [if_pos htext, List.any_eq_true]
  constructor
  · rintro ⟨m, hm, hinc⟩
    exact ⟨m, hm, (includes_iff _ _).mp hinc⟩
  · rintro ⟨m, hm, hinf⟩
    exact ⟨m, hm, (includes_iff _ _).mpr hinf⟩

/-- C2, as stated, fails when `CONFIG.showNotification` is off: on a page whose
text holds neither marker, `checkSignInResult` sends nothing at all, so the
`status unknown` notification is not requested. -/
theorem checkSignInResult_unknown_silent :
    (∀ m ∈ successTexts { CONFIG with showNotification := false },
        includes (Page.ofText "welcome back").innerText m = false)
      ∧ checkSignInResult { CONFIG with showNotification := false }
          (Page.ofText "welcome back") = []
      ∧ Effect.sendMessage (.show_notification "签到状态未知" "未检测到成功标识，请手动确认")
          ∉ checkSignInResult { CONFIG with showNotification := false }
              (Page.ofText "welcome back") := by
  refine ⟨by decide, by decide, by decide⟩

/-- C2 (amended): in text mode the page is classified as success if and only if
some configured marker occurs as a substring of the page text. On success the
script sends exactly one `sign_in_success` message and nothing else. Otherwise it
sends no `sign_in_success` message, and it sends exactly one `status unknown,
please confirm manually` notification request when `CONFIG.showNotification` is
on and nothing when it is off. -/
theorem checkSignInResult_text (cfg : Config) (page : Page)
    (htext : cfg.successIndicator.type = "text") :
    (classify cfg page = true
        ↔ ∃ m ∈ successTexts cfg, m.data <:+: page.innerText.data)
      ∧ ((∃ m ∈ successTexts cfg, m.data <:+: page.innerText.data) →
          checkSignInResult cfg page = [.sendMessage .sign_in_success])
      ∧ ((¬ ∃ m ∈ successTexts cfg, m.data <:+: page.innerText.data) →
          checkSignInResult cfg page
              = (if cfg.showNotification then
                  [.sendMessage (.show_notification "签到状态未知" "未检测到成功标识，请手动确认")]
                else [])
            ∧ Effect.sendMessage .sign_in_success ∉ checkSignInResult cfg page) := by
  have hiff := classify_text_iff cfg page htext
  refine ⟨hiff, ?_, ?_⟩
  · intro h
    unfold checkSignInResult
    rw [if_pos (hiff.mpr h)]
  · intro h
    have hc : ¬ classify cfg page = true := fun hc => h (hiff.mp hc)
    have hr : checkSignInResult cfg page
        = (if cfg.showNotification then
            [.sendMessage (.show_notification "签到状态未知" "未检测到成功标识，请手动确认")]
          else []) := by
      unfold checkSignInResult
      rw [if_neg hc]
      rfl
    refine ⟨hr, ?_⟩
    rw [hr]
    split <;> simp

theorem checkSignInResult_text_witness :
    checkSignInResult CONFIG (Page.ofText "你好，今天已经签过了哈！")
        = [.sendMessage .sign_in_success]
      ∧ checkSignInResult CONFIG (Page.ofText "welcome back")
        = [.sendMessage (.show_notification "签到状态未知" "未检测到成功标识，请手动确认")] :=
  ⟨(checkSignInResult_text CONFIG (Page.ofText "你好，今天已经签过了哈！") rfl).2.1
      ⟨"今天已经签过了哈", by decide, by decide⟩,
    ((checkSignInResult_text CONFIG (Page.ofText "welcome back") rfl).2.2
      (by decide)).1⟩

/-- C8, as stated, fails when `CONFIG.showNotification` is off: with no element
matching the selector, `tryToSignIn` requests no notification instead of one. -/
theorem tryToSignIn_not_found_silent :
    (Page.ofText "welcome back").querySelector
        ({ CONFIG with showNotification := false } : Config).signInButtonSelector = .null
      ∧ tryToSignIn { CONFIG with showNotification := false } (Page.ofText "welcome back")
          = []
      ∧ (tryToSignIn { CONFIG with showNotification := false }
          (Page.ofText "welcome back")).length ≠ 1 := by
  refine ⟨rfl, by decide, by decide⟩

/-- C8 (amended): when the sign-in selector matches no element or the query throws,
`tryToSignIn` clicks nothing, schedules no result check and sends no
`sign_in_success` message; it requests exactly one `sign-in failed, sign-in button
not found` notification when `CONFIG.showNotification` is on and none when it is
off. -/
theorem tryToSignIn_not_found (cfg : Config) (page : Page)
    (h : page.querySelector cfg.signInButtonSelector = .null
      ∨ page.querySelector cfg.signInButtonSelector = .throws) :
    tryToSignIn cfg page
        = (if cfg.showNotification then
            [.sendMessage (.show_notification "签到失败" "未找到签到按钮，请检查脚本配置")]
          else [])
      ∧ (∀ e, Effect.click e ∉ tryToSignIn cfg page)
      ∧ (∀ task delay, Effect.setTimeout task delay ∉ tryToSignIn cfg page)
      ∧ Effect.sendMessage .sign_in_success ∉ tryToSignIn cfg page := by
  have hq : safeQuerySelector page cfg.signInButtonSelector = none := by
    unfold safeQuerySelector
    rcases h with h | h <;> rw [h]
  have hr : tryToSignIn cfg page
      = (if cfg.showNotification then
          [.sendMessage (.show_notification "签到失败" "未找到签到按钮，请检查脚本配置")]
        else []) := by
    unfold tryToSignIn
    rw [hq]
    rfl
  refine ⟨hr, ?_, ?_, ?_⟩
  · intro e
    rw [hr]
    split <;> simp
  · intro task delay
    rw [hr]
    split <;> simp
  · rw [hr]
    split <;> simp

theorem tryToSignIn_not_found_witness :
    (Page.broken.querySelector CONFIG.signInButtonSelector = .null
        ∨ Page.broken.querySelector CONFIG.signInButtonSelector = .throws)
      ∧ tryToSignIn CONFIG Page.broken
        = [.sendMessage (.show_notification "签到失败" "未找到签到按钮，请检查脚本配置")] :=
  ⟨Or.inr rfl, (tryToSignIn_not_found CONFIG Page.broken (Or.inr rfl)).1⟩

/-! ### Monotonicity of `lastCheckTime` -/

theorem storage_performAutoCheck (cfg : Config) (now signClock : Int) (w : World) :
    (performAutoCheck cfg now signClock w).storage
      = if now - getStorageValue w "lastCheckTime" 0 > cfg.autoCheckInterval * 60 * 1000
        then (setStorageValue "lastCheckTime" now w).storage else w.storage := by
  unfold performAutoCheck
  simp only []
  split
  · split
    · rw [storage_openSignInPage, storage_showNotification]
    · rfl
  · rfl

theorem lastCheckTime_performAutoCheck (cfg : Config) (now signClock : Int) (w : World)
    (hclock : lastCheckTime w ≤ now) :
    lastCheckTime w ≤ lastCheckTime (performAutoCheck cfg now signClock w) := by
  unfold lastCheckTime at *
  have hst := storage_performAutoCheck cfg now signClock w
  by_cases hgt : now - getStorageValue w "lastCheckTime" 0
      > cfg.autoCheckInterval * 60 * 1000
  · rw [if_pos hgt] at hst
    have hnew : getStorageValue (performAutoCheck cfg now signClock w) "lastCheckTime" 0
        = now := by
      unfold getStorageValue
      rw [hst]
      simp [setStorageValue]
    rw [hnew]
    exact hclock
  · rw [if_neg hgt] at hst
    have hsame : getStorageValue (performAutoCheck cfg now signClock w) "lastCheckTime" 0
        = getStorageValue w "lastCheckTime" 0 := by
      unfold getStorageValue
      rw [hst]
    rw [hsame]

/-- C11, as stated, fails: the message handler accepts `set_storage_value` with the
key `lastCheckTime`, which writes that key outside the poll cycle and can lower
it, here from 1000 to 5 at clock reading 2000. -/
theorem set_storage_value_lowers_lastCheckTime :
    lastCheckTime (World.withTimes 0 1000) = 1000
      ∧ lastCheckTime (onMessage CONFIG 2000 (.set_storage_value "lastCheckTime" 5)
          (Sender.ofTab 7) (World.withTimes 0 1000)).1 = 5
      ∧ ¬ lastCheckTime (World.withTimes 0 1000)
          ≤ lastCheckTime (onMessage CONFIG 2000 (.set_storage_value "lastCheckTime" 5)
              (Sender.ofTab 7) (World.withTimes 0 1000)).1 := by
  refine ⟨by decide, by decide, by decide⟩

/-- C11 (amended): every request of the message handler other than
`set_storage_value` with the key `lastCheckTime` leaves the stored `lastCheckTime`
as it was, so among the handlers only that generic setter and the poll cycle
write it; and under a non-decreasing clock (the stored `lastCheckTime` is not
later than the clock reading `now`) the value after a poll cycle, run directly
or through the alarm listener, is greater than or equal to the value before. -/
theorem lastCheckTime_monotone (cfg : Config) (now signClock : Int) (request : Request)
    (sender : Sender) (alarm : Alarm) (w : World) :
    ((∀ v, request ≠ .set_storage_value "lastCheckTime" v) →
        (onMessage cfg now request sender w).1.storage "lastCheckTime"
            = w.storage "lastCheckTime"
          ∧ lastCheckTime w ≤ lastCheckTime (onMessage cfg now request sender w).1)
      ∧ (lastCheckTime w ≤ now →
          lastCheckTime w ≤ lastCheckTime (performAutoCheck cfg now signClock w)
            ∧ lastCheckTime w ≤ lastCheckTime (onAlarm cfg alarm now signClock w)) := by
  constructor
  · intro hreq
    have hkeep : (onMessage cfg now request sender w).1.storage "lastCheckTime"
        = w.storage "lastCheckTime" := by
      cases request with
      | get_config => rfl
      | get_storage_values => rfl
      | set_storage_value key value =>
        have hkey : ¬ "lastCheckTime" = key := by
          intro hk
          exact hreq value (by rw [hk])
        simp [onMessage, setStorageValue, hkey]
      | show_notification title message =>
        simp only [onMessage]
        rw [storage_showNotification]
      | sign_in_success => exact (sign_in_success_value cfg now sender w).2
      | force_sign_in =>
        simp only [onMessage]
        split
        · rw [storage_openSignInPage]
        · rfl
      | reset_sign_time => simp [onMessage, setStorageValue]
      | unknown action => rfl
    refine ⟨hkeep, ?_⟩
    unfold lastCheckTime getStorageValue
    rw [hkeep]
  · intro hclock
    refine ⟨lastCheckTime_performAutoCheck cfg now signClock w hclock, ?_⟩
    unfold onAlarm
    split
    · split
      · exact lastCheckTime_performAutoCheck cfg now signClock w hclock
      · exact le_refl _
    · exact le_refl _

theorem lastCheckTime_monotone_witness :
    lastCheckTime (World.withTimes 0 1000)
        ≤ lastCheckTime (onMessage CONFIG 5000000 (.set_storage_value "lastSignTime" 0)
            (Sender.ofTab 7) (World.withTimes 0 1000)).1
      ∧ lastCheckTime (World.withTimes 0 1000)
        ≤ lastCheckTime (performAutoCheck CONFIG 5000000 5000001 (World.withTimes 0 1000)) :=
  ⟨((lastCheckTime_monotone CONFIG 5000000 5000001 (.set_storage_value "lastSignTime" 0)
      (Sender.ofTab 7) ⟨"autoSignInCheck", 1, 60⟩ (World.withTimes 0 1000)).1
      (fun _ h => absurd (Request.set_storage_value.inj h).1 (by decide))).2,
    ((lastCheckTime_monotone CONFIG 5000000 5000001 (.set_storage_value "lastSignTime" 0)
      (Sender.ofTab 7) ⟨"autoSignInCheck", 1, 60⟩ (World.withTimes 0 1000)).2 (by decide)).1⟩

/-! ### Page opening -/

theorem filter_eq_cons_of_find? {α : Type} (p : α → Bool) (l : List α) (t : α)
    (h : l.find? p = some t) : ∃ rest, l.filter p = t :: rest := by
  induction l with
  | nil => simp at h
  | cons a as ih =>
    rw [List.find?_cons] at h
    rw [List.filter_cons]
    cases hp : p a
    · rw [hp] at h
      simpa using ih h
    · rw [hp] at h
      simp only [Option.some.injEq] at h
      exact ⟨as.filter p, by simp [h]⟩

theorem filter_eq_nil_of_find? {α : Type} (p : α → Bool) (l : List α)
    (h : l.find? p = none) : l.filter p = [] := by
  rw [List.find?_eq_none] at h
  rw [List.filter_eq_nil_iff]
  exact h

theorem openSignInPage_failed (cfg : Config) (w : World) :
    (Background.showNotification cfg "签到失败" "无法打开签到页面" w).tabs = w.tabs
      ∧ (Background.showNotification cfg "签到失败" "无法打开签到页面" w).notifications
        = w.notifications
            ++ (if cfg.showNotification then
                [{ title := "签到失败", message := "无法打开签到页面" }] else []) := by
  unfold Background.showNotification
  split <;> simp

/-- C12, as stated, fails when `CONFIG.showNotification` is off: with no matching
tab and a failing `chrome.tabs.create`, `openSignInPage` completes and issues no
notification. -/
theorem openSignInPage_failure_silent :
    tabsQuery { CONFIG with showNotification := false }
        (World.withTabs [] { query := false, update := false, create := true }) = []
      ∧ (openSignInPage { CONFIG with showNotification := false }
          (World.withTabs [] { query := false, update := false, create := true })
          ).notifications = []
      ∧ (openSignInPage { CONFIG with showNotification := false }
          (World.withTabs [] { query := false, update := false, create := true })
          ).tabs = [] := by
  refine ⟨by decide, by decide, by decide⟩

/-- C12 (amended): for every list of open tabs, when the `chrome.tabs` calls
succeed `openSignInPage` activates the first tab whose URL starts with `signInUrl`
and creates no tab when there is such a tab, and creates exactly one new active
tab at `signInUrl` when there is none, in both cases without a notification.
When the query, the update or the creation fails, `openSignInPage` still returns,
the tabs are unchanged, and one `sign-in failed, cannot open sign-in page`
notification is issued when `CONFIG.showNotification` is on and none when it is
off. -/
theorem openSignInPage_cases (cfg : Config) (w : World) (t : Tab) :
    (w.fault.query = false → w.fault.update = false →
        w.tabs.find? (fun u => cfg.signInUrl.data.isPrefixOf u.url.data) = some t →
        (openSignInPage cfg w).tabs
            = w.tabs.map (fun u => { u with active := decide (u.id = t.id) })
          ∧ { t with active := true } ∈ (openSignInPage cfg w).tabs
          ∧ (openSignInPage cfg w).tabs.length = w.tabs.length
          ∧ (openSignInPage cfg w).notifications = w.notifications)
      ∧ (w.fault.query = false → w.fault.create = false →
        w.tabs.find? (fun u => cfg.signInUrl.data.isPrefixOf u.url.data) = none →
        (openSignInPage cfg w).tabs
            = w.tabs.map (fun u => { u with active := false })
                ++ [{ id := some w.nextTabId, url := cfg.signInUrl, active := true }]
          ∧ (openSignInPage cfg w).tabs.length = w.tabs.length + 1
          ∧ (openSignInPage cfg w).notifications = w.notifications)
      ∧ ((w.fault.query = true
          ∨ (w.fault.update = true
              ∧ w.tabs.find? (fun u => cfg.signInUrl.data.isPrefixOf u.url.data) = some t)
          ∨ (w.fault.create = true
              ∧ w.tabs.find? (fun u => cfg.signInUrl.data.isPrefixOf u.url.data) = none)) →
        (openSignInPage cfg w).tabs = w.tabs
          ∧ (openSignInPage cfg w).notifications
            = w.notifications
                ++ (if cfg.showNotification then
                    [{ title := "签到失败", message := "无法打开签到页面" }] else [])) := by
  refine ⟨?_, ?_, ?_⟩
  · intro hq hu hfind
    obtain ⟨rest, hrest⟩ := filter_eq_cons_of_find? _ _ _ hfind
    have hres : openSignInPage cfg w = tabsUpdateActive t.id w := by
      simp [openSignInPage, tabsQuery, hq, hu, hrest]
    rw [hres]
    refine ⟨rfl, ?_, ?_, rfl⟩
    · simp only [tabsUpdateActive, List.mem_map]
      exact ⟨t, List.mem_of_find?_eq_some hfind, by simp⟩
    · simp [tabsUpdateActive]
  · intro hq hc hfind
    have hnil := filter_eq_nil_of_find? _ _ hfind
    have hres : openSignInPage cfg w = tabsCreate cfg.signInUrl w := by
      simp [openSignInPage, tabsQuery, hq, hc, hnil]
    rw [hres]
    refine ⟨rfl, ?_, rfl⟩
    simp [tabsCreate]
  · intro h
    have hres : openSignInPage cfg w
        = Background.showNotification cfg "签到失败" "无法打开签到页面" w := by
      rcases h with hq | ⟨hu, hfind⟩ | ⟨hc, hfind⟩
      · simp [openSignInPage, hq]
      · obtain ⟨rest, hrest⟩ := filter_eq_cons_of_find? _ _ _ hfind
        simp [openSignInPage, tabsQuery, hu, hrest]
      · have hnil := filter_eq_nil_of_find? _ _ hfind
        simp [openSignInPage, tabsQuery, hc, hnil]
    rw [hres]
    exact openSignInPage_failed cfg w

theorem openSignInPage_cases_witness :
    (openSignInPage CONFIG
        (World.withTabs
          [⟨some 3, "https://example.org/", true⟩,
           ⟨some 4, "https://www.iamtxt.com/home", false⟩,
           ⟨some 5, "https://www.iamtxt.com/book", false⟩]
          ⟨false, false, false⟩)).tabs
        = [⟨some 3, "https://example.org/", false⟩,
           ⟨some 4, "https://www.iamtxt.com/home", true⟩,
           ⟨some 5, "https://www.iamtxt.com/book", false⟩]
      ∧ (openSignInPage CONFIG
          (World.withTabs [⟨some 3, "https://example.org/", true⟩]
            ⟨false, false, false⟩)).tabs
        = [⟨some 3, "https://example.org/", false⟩,
           ⟨some 2, "https://www.iamtxt.com", true⟩]
      ∧ (openSignInPage CONFIG (World.withTabs [] ⟨false, false, true⟩)).notifications
        = [⟨"签到失败", "无法打开签到页面"⟩] :=
  ⟨((openSignInPage_cases CONFIG
      (World.withTabs
        [⟨some 3, "https://example.org/", true⟩,
         ⟨some 4, "https://www.iamtxt.com/home", false⟩,
         ⟨some 5, "https://www.iamtxt.com/book", false⟩]
        ⟨false, false, false⟩)
      ⟨some 4, "https://www.iamtxt.com/home", false⟩).1 rfl rfl (by decide)).1,
    ((openSignInPage_cases CONFIG
      (World.withTabs [⟨some 3, "https://example.org/", true⟩] ⟨false, false, false⟩)
      ⟨none, "", false⟩).2.1 rfl rfl (by decide)).1,
    ((openSignInPage_cases CONFIG (World.withTabs [] ⟨false, false, true⟩)
      ⟨none, "", false⟩).2.2 (Or.inr (Or.inr ⟨rfl, by decide⟩))).2⟩

/-! ### The Page Actor: the local need decision and the attempt -/

theorem orDefault_zero (x : Int) : orDefault x 0 = x := by
  unfold orDefault
  split
  · rename_i hx
    exact hx.symm
  · rfl

theorem actorNeedToSign_eq (own cfg : Config) (t : Int) (sender : Sender) (w : World) :
    actorNeedToSign own cfg t sender w
      = (cfg.debug.skipTimeCheck ||
          decide (t - getStorageValue w "lastSignTime" 0
            > orDefault cfg.checkInterval 24 * 60 * 60 * 1000)) := by
  simp only [actorNeedToSign, onMessage, startup, fetchedConfig, fetchedTimes, mergeConfig,
    orDefault_zero]

/-- The Page Actor and the Coordinator agree whenever `checkInterval` is not 0. -/
theorem actorNeedToSign_agrees (own cfg : Config) (t : Int) (sender : Sender) (w : World)
    (hne : cfg.checkInterval ≠ 0) :
    actorNeedToSign own cfg t sender w = checkNeedToSign cfg t w := by
  rw [actorNeedToSign_eq]
  unfold checkNeedToSign orDefault
  rw [if_neg hne]

/-- C13 fails on the code at `checkInterval = 0`: the start-up block reads the
interval as `checkInterval || 24`, so with `lastSignTime = 1000` and clock reading
2000 the Coordinator answers true (1000 ms exceed 0 hours) and the Page Actor
computes false (1000 ms do not exceed 24 hours). -/
theorem actorNeedToSign_differs_at_zero :
    checkNeedToSign { CONFIG with checkInterval := 0 } 2000 (World.withTimes 1000 0) = true
      ∧ actorNeedToSign CONFIG { CONFIG with checkInterval := 0 } 2000 (Sender.ofTab 7)
          (World.withTimes 1000 0) = false
      ∧ actorNeedToSign CONFIG { CONFIG with checkInterval := 0 } 2000 (Sender.ofTab 7)
          (World.withTimes 1000 0)
        ≠ checkNeedToSign { CONFIG with checkInterval := 0 } 2000
            (World.withTimes 1000 0) := by
  refine ⟨by decide, by decide, by decide⟩

/-- C14, as stated, fails when `click()` throws on the element found: with
`debug.simulateClick` off the error is caught, nothing is clicked and no result
check is scheduled. -/
theorem tryToSignIn_click_throws :
    Page.withDeadButton.querySelector CONFIG.signInButtonSelector = .element 1
      ∧ CONFIG.debug.simulateClick = false
      ∧ tryToSignIn CONFIG Page.withDeadButton = []
      ∧ (tryToSignIn CONFIG Page.withDeadButton).count
          (.setTimeout .checkSignInResult 2000) ≠ 1
      ∧ (tryToSignIn CONFIG Page.withDeadButton).count (.click 1) ≠ 1 := by
  refine ⟨by decide, rfl, by decide, by decide, by decide⟩

/-- C14 (amended): when the configured selector finds the element `e`:
with `debug.simulateClick` on, `tryToSignIn` clicks nothing and schedules exactly
one timeout, `checkSignInResult` after 2000 ms; with it off and a `click()` that
does not throw, it clicks `e` exactly once and schedules that same single
timeout; with it off and a `click()` that throws, the error is caught and there
is neither a click nor a timeout. The attempt does not depend on `needToSign`:
on a page whose URL starts with `signInUrl`, `main` schedules `tryToSignIn` after
2000 ms exactly once, whatever value `needToSign` has. -/
theorem tryToSignIn_found (cfg : Config) (page : Page) (e : Nat) (st : ActorState)
    (h : page.querySelector cfg.signInButtonSelector = .element e) :
    (cfg.debug.simulateClick = true →
        tryToSignIn cfg page = [.setTimeout .checkSignInResult 2000])
      ∧ (cfg.debug.simulateClick = false → page.clickThrows e = false →
        tryToSignIn cfg page = [.click e, .setTimeout .checkSignInResult 2000])
      ∧ (cfg.debug.simulateClick = false → page.clickThrows e = true →
        tryToSignIn cfg page = [])
      ∧ ((cfg.debug.simulateClick = true ∨ page.clickThrows e = false) →
        (tryToSignIn cfg page).count (.setTimeout .checkSignInResult 2000) = 1
          ∧ (∀ task delay, Effect.setTimeout task delay ∈ tryToSignIn cfg page →
              task = .checkSignInResult ∧ delay = 2000)
          ∧ (tryToSignIn cfg page).count (.click e)
              = (if cfg.debug.simulateClick then 0 else 1)
          ∧ (∀ e2, Effect.click e2 ∈ tryToSignIn cfg page → e2 = e))
      ∧ (st.config.signInUrl.data.isPrefixOf page.href.data = true →
        ∀ b : Bool,
          (main { st with needToSign := b } page).count (.setTimeout .tryToSignIn 2000) = 1
            ∧ Effect.setTimeout .tryToSignIn 2000 ∈ main { st with needToSign := b } page
            ∧ main { st with needToSign := b } page = main st page) := by
  have hq : safeQuerySelector page cfg.signInButtonSelector = some e := by
    unfold safeQuerySelector
    rw [h]
  have hsim : cfg.debug.simulateClick = true →
      tryToSignIn cfg page = [.setTimeout .checkSignInResult 2000] := by
    intro hs
    unfold tryToSignIn
    rw [hq]
    simp [hs]
  have hclick : cfg.debug.simulateClick = false → page.clickThrows e = false →
      tryToSignIn cfg page = [.click e, .setTimeout .checkSignInResult 2000] := by
    intro hs ht
    unfold tryToSignIn
    rw [hq]
    simp [hs, ht]
  have hthrow : cfg.debug.simulateClick = false → page.clickThrows e = true →
      tryToSignIn cfg page = [] := by
    intro hs ht
    unfold tryToSignIn
    rw [hq]
    simp [hs, ht]
  refine ⟨hsim, hclick, hthrow, ?_, ?_⟩
  · intro hor
    cases hs : cfg.debug.simulateClick
    · have ht : page.clickThrows e = false := by
        rcases hor with hs2 | ht
        · rw [hs] at hs2
          cases hs2
        · exact ht
      rw [hclick hs ht]
      refine ⟨by simp [List.count_cons], ?_, by simp [List.count_cons], ?_⟩
      · intro task delay hmem
        simpa using hmem
      · intro e2 hmem
        simpa using hmem
    · rw [hsim hs]
      refine ⟨by simp [List.count_cons], ?_, by simp [List.count_cons], ?_⟩
      · intro task delay hmem
        simpa using hmem
      · intro e2 hmem
        simp at hmem
  · intro hurl b
    have hm : main { st with needToSign := b } page
        = [.setTimeout .tryToSignIn 2000]
            ++ (if st.config.debugMode then [.setTimeout .addDebugPanel 1000] else []) := by
      unfold main
      rw [if_pos hurl]
    refine ⟨?_, ?_, rfl⟩
    · rw [hm]
      cases st.config.debugMode <;> simp [List.count_cons]
    · rw [hm]
      simp

theorem tryToSignIn_found_witness :
    Page.withButton.querySelector CONFIG.signInButtonSelector = .element 1
      ∧ tryToSignIn CONFIG Page.withButton
        = [.click 1, .setTimeout .checkSignInResult 2000]
      ∧ tryToSignIn { CONFIG with debug := { CONFIG.debug with simulateClick := true } }
          Page.withButton
        = [.setTimeout .checkSignInResult 2000]
      ∧ tryToSignIn CONFIG Page.withDeadButton = []
      ∧ (tryToSignIn CONFIG Page.withButton).count (.setTimeout .checkSignInResult 2000) = 1
      ∧ (main ⟨CONFIG, 0, 0, true⟩ Page.withButton).count (.setTimeout .tryToSignIn 2000)
        = 1 :=
  ⟨by decide,
    (tryToSignIn_found CONFIG Page.withButton 1 ⟨CONFIG, 0, 0, false⟩ (by decide)).2.1
      rfl rfl,
    (tryToSignIn_found { CONFIG with debug := { CONFIG.debug with simulateClick := true } }
      Page.withButton 1 ⟨CONFIG, 0, 0, false⟩ (by decide)).1 rfl,
    (tryToSignIn_found CONFIG Page.withDeadButton 1 ⟨CONFIG, 0, 0, false⟩
      (by decide)).2.2.1 rfl rfl,
    ((tryToSignIn_found CONFIG Page.withButton 1 ⟨CONFIG, 0, 0, false⟩
      (by decide)).2.2.2.1 (Or.inr rfl)).1,
    ((tryToSignIn_found CONFIG Page.withButton 1 ⟨CONFIG, 0, 0, false⟩
      (by decide)).2.2.2.2 (by decide) true).1⟩

end AutoSignIn
